import Mathlib

/-!
A verification development for the goodseed experiment-tracking library.

The Python source is shallowly embedded: pure helpers become Lean functions,
the SQLite-backed `LocalStorage` becomes explicit state passing over a record
of tables, and fallible operations return `Except String`.

Modelling conventions, fixed once for the whole development:

* A Python `float` is identified with its canonical shortest-round-trip
  decimal text (the text produced by CPython's `str`): CPython guarantees
  that `str` is injective on floats and that `float (str x) = x`, so the
  canonical text is a faithful carrier for the value.  `str` on a float is
  then the identity on the carried text, and `float` applied to a canonical
  text is text capture.
* A Python `datetime` is likewise identified with its ISO-8601 text
  (`isoformat` output), on which `isoformat` / `fromisoformat` act as
  identity / text capture.
* Raw values read back from a SQLite TEXT column are `Option String`
  (`NULL` becomes `none`).
* `str.lower` is modelled on the ASCII range via `Char.toLower`.
* Strings are manipulated through their character lists so that concrete
  instances compute by `decide`.
-/

namespace Goodseed

/-- Carrier for a Python `float`: the canonical shortest-round-trip decimal
text produced by CPython's `str`. -/
structure PyFloat where
  text : String
deriving DecidableEq

/-- Carrier for a Python `datetime`: its ISO-8601 `isoformat` text. -/
structure PyDatetime where
  iso : String
deriving DecidableEq

/-- The directly supported value kinds of the codec
(`utils.SupportedValue`): `None`, `bool`, `int`, `float`, `str`,
`datetime`.  Structural equality of `PyValue` is "equal content and same
kind". -/
inductive PyValue where
  | vnone
  | vbool (b : Bool)
  | vint (n : Int)
  | vfloat (f : PyFloat)
  | vstr (s : String)
  | vdatetime (d : PyDatetime)
deriving DecidableEq

/-- The decimal digit character for `d % 10`, as produced by Python's
`str` on integers. -/
def digit_char (d : Nat) : Char :=
  match d with
  | 0 => '0'
  | 1 => '1'
  | 2 => '2'
  | 3 => '3'
  | 4 => '4'
  | 5 => '5'
  | 6 => '6'
  | 7 => '7'
  | 8 => '8'
  | _ => '9'

/-- Characters of Python's `str` on a natural number (most significant digit
first; `0` prints as `"0"`). -/
def nat_to_decimal_chars (n : Nat) : List Char :=
  if n = 0 then ['0'] else ((Nat.digits 10 n).map digit_char).reverse

/-- Python's `str` on an `int`: optional leading minus sign, then the
decimal digits. -/
def int_to_decimal (n : Int) : String :=
  if n < 0 then String.mk ('-' :: nat_to_decimal_chars n.natAbs)
  else String.mk (nat_to_decimal_chars n.toNat)

/-- The numeric value of a decimal digit character, if it is one. -/
def char_digit? (c : Char) : Option Nat :=
  if 48 ≤ c.toNat ∧ c.toNat ≤ 57 then some (c.toNat - 48) else none

/-- Accumulating decimal parser over a character list; fails on the first
non-digit. -/
def parse_nat_acc (cs : List Char) (acc : Nat) : Option Nat :=
  match cs with
  | [] => some acc
  | c :: rest =>
    match char_digit? c with
    | some d => parse_nat_acc rest (acc * 10 + d)
    | none => none

/-- Parse a non-empty all-digit character list as a natural number. -/
def parse_nat (cs : List Char) : Option Nat :=
  if cs.isEmpty then none else parse_nat_acc cs 0

/-- Integer literal syntax over characters: optional sign, then a
non-empty run of decimal digits. -/
def py_int_of_chars (cs : List Char) : Option Int :=
  match cs with
  | [] => none
  | c :: rest =>
    if c = '-' then (parse_nat rest).map (fun n => -(n : Int))
    else if c = '+' then (parse_nat rest).map (fun n => (n : Int))
    else (parse_nat cs).map (fun n => (n : Int))

/-- Python's `int` applied to a string: optional sign then decimal digits;
anything else raises `ValueError`. -/
def py_int_of_string (s : String) : Except String Int :=
  match py_int_of_chars s.data with
  | some n => .ok n
  | none => .error ("invalid literal for int() with base 10: " ++ s)

/-- Python's `str.lower`, on the ASCII range. -/
def py_lower (s : String) : String :=
  String.mk (s.data.map Char.toLower)

mutual

/-- The universe of Python values reaching the config write path: the
directly supported scalars, dictionaries with string keys, sequences
(`list`/`tuple` are not distinguished), and a catch-all for any other
object.  An `other` value carries the object's type name (Python
`type(value).__name__`, used in error messages) and its `str` rendering. -/
inductive PyObj where
  | supported (v : PyValue)
  | dict (entries : PyDict)
  | list (items : PyList)
  | other (tyName : String) (strText : String)

/-- The entries of a Python dictionary with string keys, in insertion
order.  Spelled as a dedicated inductive rather than as
`List (String × PyObj)` so that the functions recursing through nested
values below are structurally recursive. -/
inductive PyDict where
  | nil
  | cons (key : String) (value : PyObj) (rest : PyDict)

/-- The items of a Python sequence (`list`/`tuple`), in order; a
dedicated inductive for the same reason as `PyDict`. -/
inductive PyList where
  | nil
  | cons (item : PyObj) (rest : PyList)

end

/-- View the entries of a `PyDict` as an association list (used where the
source iterates `data.items()`). -/
def PyDict.toList : PyDict → List (String × PyObj)
  | .nil => []
  | .cons k v rest => (k, v) :: rest.toList

/-- `utils.is_supported_type`: whether a value is one of the directly
supported scalar kinds. -/
def is_supported_type (v : PyObj) : Bool :=
  match v with
  | .supported _ => true
  | _ => false

mutual

/-- Python `repr` of a value, approximated: scalars render as in CPython,
strings are surrounded by single quotes (escaping is not modelled),
datetimes render by their ISO text, containers recurse with
comma-separated elements.  Only its value on `other` and on containers of
scalars is relied upon. -/
def py_repr (v : PyObj) : String :=
  match v with
  | .supported .vnone => "None"
  | .supported (.vbool true) => "True"
  | .supported (.vbool false) => "False"
  | .supported (.vint n) => int_to_decimal n
  | .supported (.vfloat f) => f.text
  | .supported (.vstr s) => "'" ++ s ++ "'"
  | .supported (.vdatetime d) => d.iso
  | .dict entries => "\x7b" ++ py_repr_entries entries ++ "\x7d"
  | .list items => "[" ++ py_repr_items items ++ "]"
  | .other _ tx => tx

/-- Comma-separated `repr`s of dictionary entries. -/
def py_repr_entries (entries : PyDict) : String :=
  match entries with
  | .nil => ""
  | .cons k v .nil => "'" ++ k ++ "': " ++ py_repr v
  | .cons k v rest => "'" ++ k ++ "': " ++ py_repr v ++ ", " ++ py_repr_entries rest

/-- Comma-separated `repr`s of sequence items. -/
def py_repr_items (items : PyList) : String :=
  match items with
  | .nil => ""
  | .cons v .nil => py_repr v
  | .cons v rest => py_repr v ++ ", " ++ py_repr_items rest

end

/-- Python `str` of a value: identity on strings, ISO text on datetimes,
`repr` otherwise. -/
def py_str (v : PyObj) : String :=
  match v with
  | .supported (.vstr s) => s
  | .supported (.vdatetime d) => d.iso
  | v => py_repr v

/-- `utils.cast_to_string`: cast an unsupported value to its string
representation (datetimes via `isoformat`, everything else via `str`). -/
def cast_to_string (v : PyObj) : String :=
  match v with
  | .supported (.vdatetime d) => d.iso
  | v => py_str v

/-- `utils.serialize_value`: serialize a value for storage as a
`(type_tag, serialized_string)` pair.  The `isinstance` chain of the
source maps onto the constructors of `PyValue`; any value that is not a
supported scalar falls through to the final branch and is rendered with
`str`. -/
def serialize_value (v : PyObj) : String × String :=
  match v with
  | .supported .vnone => ("null", "")
  | .supported (.vbool b) => ("bool", if b then "true" else "false")
  | .supported (.vint n) => ("int", int_to_decimal n)
  | .supported (.vfloat f) => ("float", f.text)
  | .supported (.vstr s) => ("str", s)
  | .supported (.vdatetime d) => ("datetime", d.iso)
  | v => ("str", py_str v)

/-- `utils.deserialize_value`: decode a `(type_tag, raw)` pair read back
from storage.  `raw` is the TEXT column value (`none` for SQL NULL).  The
`int` branch models Python's `int(raw)` (which can raise `ValueError`);
the `float` and `datetime` branches capture the raw text into the
canonical-text carriers; an unknown tag returns the raw value unchanged
(here: the raw string).  The source's single early return
(`type_tag == "null" or raw_value is None`) is split across the `none`
arm and the first `if`. -/
def deserialize_value (type_tag : String) (raw : Option String) : Except String PyValue :=
  match raw with
  | none => .ok .vnone
  | some s =>
      if type_tag = "null" then .ok .vnone
      else if type_tag = "bool" then .ok (.vbool (py_lower s == "true"))
      else if type_tag = "int" then (py_int_of_string s).map .vint
      else if type_tag = "float" then .ok (.vfloat ⟨s⟩)
      else if type_tag = "str" then .ok (.vstr s)
      else if type_tag = "datetime" then .ok (.vdatetime ⟨s⟩)
      else .ok (.vstr s)

/-- `utils.normalize_path`: strip leading and trailing slashes. -/
def normalize_path (p : String) : String :=
  String.mk (((p.data.dropWhile (· == '/')).reverse.dropWhile (· == '/')).reverse)

mutual

/-- `utils.flatten_dict`: flatten a nested dictionary into path-based
keys.  Nested dictionaries recurse with `sep`-joined keys; sequence
values are expanded item by item; supported scalars become leaves;
anything else is cast to string when `cast_unsupported` is set and is a
`TypeError` otherwise.  The result list is in generation order (the
insertion order of the Python `dict(items)`). -/
def flatten_dict (data : PyDict) (parent_key : String) (sep : String) (cast_unsupported : Bool) : Except String (List (String × PyValue)) :=
  match data with
  | .nil => .ok []
  | .cons key value rest =>
    let new_key := if parent_key = "" then key else parent_key ++ sep ++ key
    match value with
    | .dict d => do
      let sub ← flatten_dict d new_key sep cast_unsupported
      let tail ← flatten_dict rest parent_key sep cast_unsupported
      .ok (sub ++ tail)
    | .list items => do
      let sub ← flatten_list_items items new_key sep cast_unsupported 0
      let tail ← flatten_dict rest parent_key sep cast_unsupported
      .ok (sub ++ tail)
    | .supported v => do
      let tail ← flatten_dict rest parent_key sep cast_unsupported
      .ok ((new_key, v) :: tail)
    | .other tyName strText =>
      if cast_unsupported then do
        let tail ← flatten_dict rest parent_key sep cast_unsupported
        .ok ((new_key, .vstr (cast_to_string (.other tyName strText))) :: tail)
      else .error ("Unsupported type " ++ tyName ++ " at " ++ new_key)

/-- The sequence arm of `utils.flatten_dict`: items are keyed
`new_key/i` (the source hard-codes `/` here, independent of `sep`);
dictionary items recurse, supported scalars become leaves, and any other
item — including a nested sequence — is cast or rejected. -/
def flatten_list_items (items : PyList) (new_key : String) (sep : String) (cast_unsupported : Bool) (i : Nat) : Except String (List (String × PyValue)) :=
  match items with
  | .nil => .ok []
  | .cons item rest =>
    let item_key := new_key ++ "/" ++ int_to_decimal i
    match item with
    | .dict d => do
      let sub ← flatten_dict d item_key sep cast_unsupported
      let tail ← flatten_list_items rest new_key sep cast_unsupported (i + 1)
      .ok (sub ++ tail)
    | .supported v => do
      let tail ← flatten_list_items rest new_key sep cast_unsupported (i + 1)
      .ok ((item_key, v) :: tail)
    | .list items2 =>
      if cast_unsupported then do
        let tail ← flatten_list_items rest new_key sep cast_unsupported (i + 1)
        .ok ((item_key, .vstr (cast_to_string (.list items2))) :: tail)
      else .error ("Unsupported type list at " ++ item_key)
    | .other tyName strText =>
      if cast_unsupported then do
        let tail ← flatten_list_items rest new_key sep cast_unsupported (i + 1)
        .ok ((item_key, .vstr (cast_to_string (.other tyName strText))) :: tail)
      else .error ("Unsupported type " ++ tyName ++ " at " ++ item_key)

end

/-- A row of the `configs` table (minus its `path` primary key):
`type_tag TEXT NOT NULL`, `value TEXT` (nullable), `updated_at TEXT NOT
NULL`. -/
structure ConfigRow where
  type_tag : String
  value : Option String
  updated_at : String
deriving DecidableEq

/-- A joined metric row as returned by the point queries:
`(series path, step, y, ts)`. -/
structure MetricRow where
  path : String
  step : Int
  y : PyFloat
  ts : Int
deriving DecidableEq

/-- `storage.LocalStorage`, modelled as the contents of its four SQLite
tables plus the connection state and the in-process series cache.
`closed = true` stands for `self._conn is None`; `next_series_id` is the
`AUTOINCREMENT` counter of `metric_series` (SQLite starts at 1);
`metric_points` is keyed by its `(series_id, step)` primary key. -/
structure LocalStorage where
  closed : Bool
  meta_rows : List (String × String)
  configs : List (String × ConfigRow)
  metric_series : List (String × Nat)
  next_series_id : Nat
  metric_points : List ((Nat × Int) × (PyFloat × Int))
  series_cache : List (String × Nat)
deriving DecidableEq

/-- `INSERT OR REPLACE` into a table with a unique key: every row with the
same key is removed and the new row inserted. -/
def table_upsert {κ β : Type} [BEq κ] (l : List (κ × β)) (k : κ) (v : β) : List (κ × β) :=
  l.filter (fun e => e.1 != k) ++ [(k, v)]

/-- First value bound to a key in an association list (`dict.get` /
`SELECT ... WHERE key = ?` against a unique column). -/
def assoc_lookup {κ β : Type} [BEq κ] (l : List (κ × β)) (k : κ) : Option β :=
  match l with
  | [] => none
  | (k', v) :: rest => if k' == k then some v else assoc_lookup rest k

/-- A freshly opened `LocalStorage` after `_init_schema`: empty tables,
open connection, empty series cache. -/
def LocalStorage.init : LocalStorage :=
  { closed := false
    meta_rows := []
    configs := []
    metric_series := []
    next_series_id := 1
    metric_points := []
    series_cache := [] }

/-- `LocalStorage._get_series_id`: consult the cache, else `INSERT OR
IGNORE` the path into `metric_series` and read its id back, caching it. -/
def LocalStorage.get_series_id (s : LocalStorage) (path : String) : Nat × LocalStorage :=
  match assoc_lookup s.series_cache path with
  | some sid => (sid, s)
  | none =>
    match assoc_lookup s.metric_series path with
    | some sid => (sid, { s with series_cache := s.series_cache ++ [(path, sid)] })
    | none =>
      let sid := s.next_series_id
      (sid, { s with
        metric_series := s.metric_series ++ [(path, sid)]
        next_series_id := sid + 1
        series_cache := s.series_cache ++ [(path, sid)] })

/-- `LocalStorage.set_meta`: `INSERT OR REPLACE` into `run_meta`. -/
def LocalStorage.set_meta (s : LocalStorage) (key value : String) : Except String LocalStorage :=
  if s.closed then .error "Storage is closed"
  else .ok { s with meta_rows := table_upsert s.meta_rows key value }

/-- `LocalStorage.get_meta`: read one `run_meta` value. -/
def LocalStorage.get_meta (s : LocalStorage) (key : String) : Except String (Option String) :=
  if s.closed then .error "Storage is closed"
  else .ok (assoc_lookup s.meta_rows key)

/-- `LocalStorage.log_configs`: upsert each `(path, (type_tag, value))`
entry with a shared `updated_at` timestamp (the wall-clock reading is
passed in as `now`). -/
def LocalStorage.log_configs (s : LocalStorage) (data : List (String × String × String)) (now : String) : Except String LocalStorage :=
  if s.closed then .error "Storage is closed"
  else .ok { s with
    configs := data.foldl
      (fun acc e => table_upsert acc e.1 ⟨e.2.1, some e.2.2, now⟩) s.configs }

/-- `LocalStorage.get_configs`: all config rows as
`path ↦ (type_tag, value)`. -/
def LocalStorage.get_configs (s : LocalStorage) : Except String (List (String × String × Option String)) :=
  if s.closed then .error "Storage is closed"
  else .ok (s.configs.map (fun e => (e.1, e.2.type_tag, e.2.value)))

/-- `LocalStorage.log_metric_points`: for each `(path, step, y, ts)`
point, resolve or create the series id, then `INSERT OR REPLACE` the
point keyed by `(series_id, step)`. -/
def LocalStorage.log_metric_points (s : LocalStorage) (points : List (String × Int × PyFloat × Int)) : Except String LocalStorage :=
  if s.closed then .error "Storage is closed"
  else .ok (points.foldl
    (fun acc e =>
      let (sid, acc') := acc.get_series_id e.1
      { acc' with metric_points := table_upsert acc'.metric_points (sid, e.2.1) (e.2.2.1, e.2.2.2) })
    s)

/-- One row of the `JOIN metric_series s ON p.series_id = s.id` of the
point queries: a stored point paired with the path of its series, or
`none` when the series id is missing (an inner join drops it). -/
def join_row (series : List (String × Nat)) (pt : (Nat × Int) × (PyFloat × Int)) : Option MetricRow :=
  (series.find? (fun e => e.2 == pt.1.1)).map (fun e => ⟨e.1, pt.1.2, pt.2.1, pt.2.2⟩)

/-- The joined point table of the point queries. -/
def join_rows (series : List (String × Nat)) (points : List ((Nat × Int) × (PyFloat × Int))) : List MetricRow :=
  points.filterMap (join_row series)

/-- Strict lexicographic order on character lists by code point (the
binary collation SQLite applies to TEXT and the code-point order Python
applies to `str`). -/
def chars_lt : List Char → List Char → Bool
  | [], [] => false
  | [], _ :: _ => true
  | _ :: _, [] => false
  | a :: as, b :: bs => a.toNat < b.toNat || (a.toNat = b.toNat && chars_lt as bs)

/-- Non-strict lexicographic order on character lists by code point. -/
def chars_le : List Char → List Char → Bool
  | [], _ => true
  | _ :: _, [] => false
  | a :: as, b :: bs =>
    if a.toNat < b.toNat then true
    else if a.toNat = b.toNat then chars_le as bs
    else false

/-- Strict string order by code point. -/
def str_lt (a b : String) : Bool := chars_lt a.data b.data

/-- Non-strict string order by code point. -/
def str_le (a b : String) : Bool := chars_le a.data b.data

/-- `ORDER BY p.step` (insertion sort keeps everything executable). -/
def sort_by_step (rows : List MetricRow) : List MetricRow :=
  List.insertionSort (fun a b => a.step ≤ b.step) rows

/-- `ORDER BY s.path, p.step`. -/
def sort_by_path_step (rows : List MetricRow) : List MetricRow :=
  List.insertionSort
    (fun a b => str_lt a.path b.path = true ∨ (a.path = b.path ∧ a.step ≤ b.step)) rows

/-- `LocalStorage.get_metric_points`: all points, optionally filtered by
series path.  The source guards the filter with Python truthiness
(`if path:`), so both `None` and the empty string select the unfiltered,
path-then-step-ordered query; a non-empty path selects the filtered,
step-ordered query. -/
def LocalStorage.get_metric_points (s : LocalStorage) (path : Option String) : Except String (List MetricRow) :=
  if s.closed then .error "Storage is closed"
  else
    match path with
    | some p =>
      if p = "" then .ok (sort_by_path_step (join_rows s.metric_series s.metric_points))
      else .ok (sort_by_step ((join_rows s.metric_series s.metric_points).filter (fun r => r.path == p)))
    | none => .ok (sort_by_path_step (join_rows s.metric_series s.metric_points))

/-- `LocalStorage.get_metric_paths`: the sorted distinct paths of series
having at least one point. -/
def LocalStorage.get_metric_paths (s : LocalStorage) : Except String (List String) :=
  if s.closed then .error "Storage is closed"
  else .ok ((List.insertionSort (fun a b : String => str_le a b = true)
    ((s.metric_series.filter (fun e => s.metric_points.any (fun pt => pt.1.1 == e.2))).map (fun e => e.1))).dedup)

/-- `LocalStorage.checkpoint_wal`: merge the WAL into the main file; no
table content changes, but the operation still requires an open
connection. -/
def LocalStorage.checkpoint_wal (s : LocalStorage) : Except String LocalStorage :=
  if s.closed then .error "Storage is closed"
  else .ok s

/-- `LocalStorage.close`: release the connection if it is still open;
calling it on a closed store leaves the state unchanged. -/
def LocalStorage.close (s : LocalStorage) : LocalStorage :=
  { s with closed := true }

/-- `run.Run`, reduced to the state its logging operations consult: the
`_closed` flag and the backing `LocalStorage`. -/
structure Run where
  closed : Bool
  storage : LocalStorage

/-- The `_path_for` helper of `run._resolve_db_path`: the target file for
a candidate run name, either under an explicit `log_dir` or under the
`~/.goodseed/projects/{project}/runs/` convention of
`config.get_run_db_path` (`home` is the already-resolved goodseed home
directory). -/
def path_for (log_dir : Option String) (project home : String) (name : String) : String :=
  match log_dir with
  | some d => d ++ "/" ++ name ++ ".sqlite"
  | none => home ++ "/projects/" ++ project ++ "/runs/" ++ name ++ ".sqlite"

/-- The collision loop of `run._resolve_db_path`: try `base-i` for each
`i` in the given index list, returning the first candidate whose file
does not exist. -/
def find_free_name (fs : List String) (pf : String → String) (base : String) (idx : List Nat) : Except String (String × String) :=
  match idx with
  | [] => .error "Could not find a unique run name after retries"
  | i :: rest =>
    let candidate := base ++ "-" ++ int_to_decimal (i : Int)
    if pf candidate ∈ fs then find_free_name fs pf base rest
    else .ok (candidate, pf candidate)

/-- `run._resolve_db_path`: resolve a unique `(run_name, db_path)` pair
against the set `fs` of files that currently exist.  A free target is
taken as-is; an explicit name whose target exists is an already-exists
failure; an auto-generated name retries `base-2` … `base-999`
(`range(2, 1000)`) before giving up. -/
def resolve_db_path (fs : List String) (run_name project : String) (auto_name : Bool) (log_dir : Option String) (home : String) : Except String (String × String) :=
  let pf := path_for log_dir project home
  if pf run_name ∈ fs then
    if auto_name then find_free_name fs pf run_name (List.range' 2 998)
    else .error ("Database already exists: " ++ pf run_name
      ++ "\nChoose a different run_name or delete the file:\n  rm " ++ pf run_name)
  else .ok (run_name, pf run_name)

/-- `Run.log_configs`: refuse on a closed run; optionally flatten the
input (the source calls `flatten_dict(data)` with its default
`cast_unsupported=False`); then normalize every path, serialize every
value, and hand the batch to the storage layer.  `now` is the
`updated_at` wall-clock reading. -/
def Run.log_configs (r : Run) (data : PyDict) (flatten : Bool) (now : String) : Except String Run :=
  if r.closed then .error "Run is closed"
  else
    match (if flatten
      then (flatten_dict data "" "/" false).map (fun l => l.map (fun kv => (kv.1, PyObj.supported kv.2)))
      else .ok data.toList) with
    | .error e => .error e
    | .ok d2 =>
      match r.storage.log_configs
        (d2.map (fun kv => (normalize_path kv.1, serialize_value kv.2))) now with
      | .error e => .error e
      | .ok st => .ok { r with storage := st }

/-- A run summary as produced by the catalog scanner and the `/api/runs`
route. -/
structure RunSummary where
  project : String
  run_id : String
  experiment_name : Option String
  created_at : Option String
  closed_at : Option String
  status : String
deriving DecidableEq

instance except_deq {ε α : Type} [DecidableEq ε] [DecidableEq α] :
    DecidableEq (Except ε α) := fun x y =>
  match x, y with
  | .ok a, .ok b =>
    if h : a = b then isTrue (by rw [h])
    else isFalse (fun hc => h (by injection hc))
  | .error a, .error b =>
    if h : a = b then isTrue (by rw [h])
    else isFalse (fun hc => h (by injection hc))
  | .ok _, .error _ => isFalse (fun hc => Except.noConfusion hc)
  | .error _, .ok _ => isFalse (fun hc => Except.noConfusion hc)

/-- One run file as the scanner finds it on disk: the file stem (name
without the `.sqlite` suffix) and either its `run_meta` key/value rows or
an error standing for an unreadable or corrupt file. -/
structure RunFile where
  stem : String
  meta : Except String (List (String × String))
deriving DecidableEq

/-- One entry of the projects directory as the scanner sees it: its
name, whether it is a directory, whether it has a `runs` subdirectory,
and the run files inside that subdirectory (in directory-listing
order). -/
structure ProjectDir where
  name : String
  is_dir : Bool
  has_runs_dir : Bool
  run_files : List RunFile
deriving DecidableEq

/-- The summary record built by `server._scan_runs` for one readable run
file: `run_id` falls back to the file stem, `status` to `"unknown"`. -/
def summarize (project : String) (f : RunFile) (meta : List (String × String)) : RunSummary :=
  { project := project
    run_id := (assoc_lookup meta "run_name").getD f.stem
    experiment_name := assoc_lookup meta "experiment_name"
    created_at := assoc_lookup meta "created_at"
    closed_at := assoc_lookup meta "closed_at"
    status := (assoc_lookup meta "status").getD "unknown" }

/-- The sort key of `server._scan_runs`: `r.get("created_at") or ""`. -/
def scan_sort_key (r : RunSummary) : String :=
  r.created_at.getD ""

/-- The summaries of the readable run files of one project directory:
non-directories and projects without a `runs` subdirectory contribute
nothing, and a run file whose metadata cannot be read is skipped. -/
def project_summaries (pd : ProjectDir) : List RunSummary :=
  if pd.is_dir && pd.has_runs_dir then
    pd.run_files.filterMap (fun f => (f.meta.toOption).map (summarize pd.name f))
  else []

/-- `server._scan_runs`: walk the projects directory, skipping
non-directories, projects without a `runs` subdirectory and unreadable
run files, then sort the summaries by creation time, most recent first
(`sort(key=..., reverse=True)`, i.e. stable descending on
`scan_sort_key`). -/
def scan_runs (projects : List ProjectDir) : List RunSummary :=
  List.insertionSort (fun a b => str_le (scan_sort_key b) (scan_sort_key a) = true)
    ((projects.map project_summaries).flatten)

/-- What the query server can observe of the world, one field per
side-effecting helper: whether a file exists, the scan of the projects
directory, and the raw rows of each store read keyed by database path.
An `.error` value stands for any exception raised inside the helper,
which the route handler catches; its payload is the exception's `str`. -/
structure ServerWorld where
  projects_dir : String
  file_exists : String → Bool
  scanned_runs : Except String (List RunSummary)
  config_rows : String → Except String (List (String × String × Option String))
  metric_rows : String → Option String → Except String (List MetricRow)
  metric_path_rows : String → Except String (List String)

/-- `server._resolve_run_db`: the expected path convention
`projects_dir/project/runs/run_name.sqlite`, or `none` when no such file
exists. -/
def resolve_run_db (w : ServerWorld) (project run_name : String) : Option String :=
  let db_path := w.projects_dir ++ "/" ++ project ++ "/runs/" ++ run_name ++ ".sqlite"
  if w.file_exists db_path then some db_path else none

/-- `server._get_configs`: read the config rows of a run database and
decode each value with `deserialize_value` (a decoding failure, like any
other exception, propagates to the route handler). -/
def get_configs_api (w : ServerWorld) (db_path : String) : Except String (List (String × PyValue)) :=
  match w.config_rows db_path with
  | .error e => .error e
  | .ok rows => rows.mapM (fun r => (deserialize_value r.2.1 r.2.2).map (fun v => (r.1, v)))

/-- The JSON body of a response: either a successful payload or the
`\x7b"error": message\x7d` object written by `_send_error`. -/
inductive ApiBody where
  | runs (rs : List RunSummary)
  | configs (cs : List (String × PyValue))
  | metrics (ms : List MetricRow)
  | paths (ps : List String)
  | error_field (msg : String)
deriving DecidableEq

/-- An HTTP response: status code and JSON body.  (CORS headers and the
ISO rendering of point timestamps are not modelled; a metrics payload
carries the raw rows.) -/
structure HttpResponse where
  status : Nat
  body : ApiBody
deriving DecidableEq

/-- `_send_error`: a JSON body with a single `error` field. -/
def send_error (code : Nat) (message : String) : HttpResponse :=
  { status := code, body := .error_field message }

/-- A request path is identified with its slash-split segments (the
route regexes act only on that structure): `/api/runs/p/r/configs`
becomes `["", "api", "runs", "p", "r", "configs"]`. -/
def match_route_runs (segs : List String) : Bool :=
  segs == ["", "api", "runs"]

/-- Match `^/api/runs/([^/]+)/([^/]+)/<tail>$`: the two captures must be
non-empty and slash-free, which on split segments is exactly
non-emptiness. -/
def match_route_sub (segs : List String) (tail : String) : Option (String × String) :=
  match segs with
  | ["", "api", "runs", project, run_name, t] =>
    if t == tail && project != "" && run_name != "" then some (project, run_name) else none
  | _ => none

/-- `_RequestHandler.do_GET`: route a GET request.  `metric_query` is the
already-parsed `path` query parameter of the metrics route.  The
`try/except` of the source surfaces any helper failure as a 500 whose
body carries the exception message; an unmatched path is a 404
`"Not found"`; a missing run file is a 404 `"Run not found: ..."`. -/
def do_GET (w : ServerWorld) (segs : List String) (metric_query : Option String) : HttpResponse :=
  if match_route_runs segs then
    match w.scanned_runs with
    | .ok rs => { status := 200, body := .runs rs }
    | .error e => send_error 500 e
  else
    match match_route_sub segs "configs" with
    | some (project, run_name) =>
      match resolve_run_db w project run_name with
      | none => send_error 404 ("Run not found: " ++ project ++ "/" ++ run_name)
      | some db_path =>
        match get_configs_api w db_path with
        | .ok cs => { status := 200, body := .configs cs }
        | .error e => send_error 500 e
    | none =>
      match match_route_sub segs "metrics" with
      | some (project, run_name) =>
        match resolve_run_db w project run_name with
        | none => send_error 404 ("Run not found: " ++ project ++ "/" ++ run_name)
        | some db_path =>
          match w.metric_rows db_path metric_query with
          | .ok ms => { status := 200, body := .metrics ms }
          | .error e => send_error 500 e
      | none =>
        match match_route_sub segs "metric-paths" with
        | some (project, run_name) =>
          match resolve_run_db w project run_name with
          | none => send_error 404 ("Run not found: " ++ project ++ "/" ++ run_name)
          | some db_path =>
            match w.metric_path_rows db_path with
            | .ok ps => { status := 200, body := .paths ps }
            | .error e => send_error 500 e
        | none => send_error 404 "Not found"

/-- Encode a supported value and decode the resulting
`(kind_tag, text)` pair again. -/
def round_trip (v : PyValue) : Except String PyValue :=
  deserialize_value (serialize_value (.supported v)).1 (some (serialize_value (.supported v)).2)

/-!  ## Theorems  -/

theorem parse_nat_acc_append (xs ys : List Char) (a : Nat) :
    parse_nat_acc (xs ++ ys) a = (parse_nat_acc xs a).bind (fun b => parse_nat_acc ys b) := by
  induction xs generalizing a with
  | nil => rfl
  | cons c rest ih =>
    simp only [List.cons_append, parse_nat_acc]
    cases char_digit? c with
    | some d => exact ih (a * 10 + d)
    | none => rfl

theorem char_digit?_digit_char : ∀ d < 10, char_digit? (digit_char d) = some d := by
  decide

theorem parse_digits_rev (ds : List Nat) (h : ∀ d ∈ ds, d < 10) (a : Nat) :
    parse_nat_acc ((ds.map digit_char).reverse) a = some (a * 10 ^ ds.length + Nat.ofDigits 10 ds) := by
  induction ds generalizing a with
  | nil => simp [parse_nat_acc, Nat.ofDigits_nil]
  | cons d t ih =>
    have hd : d < 10 := h d (List.mem_cons_self d t)
    have ht : ∀ x ∈ t, x < 10 := fun x hx => h x (List.mem_cons_of_mem d hx)
    rw [List.map_cons, List.reverse_cons, parse_nat_acc_append, ih ht a]
    show parse_nat_acc [digit_char d] (a * 10 ^ t.length + Nat.ofDigits 10 t) = _
    simp only [parse_nat_acc, char_digit?_digit_char d hd]
    rw [Nat.ofDigits_cons, List.length_cons, pow_succ]
    congr 1
    ring

theorem parse_nat_decimal (n : Nat) : parse_nat (nat_to_decimal_chars n) = some n := by
  by_cases h : n = 0
  · subst h; decide
  · have hne : Nat.digits 10 n ≠ [] := Nat.digits_ne_nil_iff_ne_zero.mpr h
    have hlt : ∀ d ∈ Nat.digits 10 n, d < 10 :=
      fun d hd => Nat.digits_lt_base (by norm_num) hd
    unfold nat_to_decimal_chars parse_nat
    rw [if_neg h]
    rw [if_neg (by simp [List.isEmpty_iff, hne])]
    rw [parse_digits_rev _ hlt 0]
    simp [Nat.ofDigits_digits]

theorem digit_char_not_sign : ∀ d, digit_char d ≠ '-' ∧ digit_char d ≠ '+' := by
  intro d
  unfold digit_char
  split <;> exact ⟨by decide, by decide⟩

theorem nat_chars_cons (m : Nat) : ∃ d tl, nat_to_decimal_chars m = digit_char d :: tl := by
  unfold nat_to_decimal_chars
  split
  · exact ⟨0, [], rfl⟩
  · rename_i h
    have hne : Nat.digits 10 m ≠ [] := Nat.digits_ne_nil_iff_ne_zero.mpr h
    rcases hrev : ((Nat.digits 10 m).map digit_char).reverse with _ | ⟨c, tl⟩
    · exact absurd (by simpa using hrev) hne
    · have hc : c ∈ (Nat.digits 10 m).map digit_char := by
        rw [← List.mem_reverse, hrev]; exact List.mem_cons_self c tl
      obtain ⟨d, _, hd⟩ := List.mem_map.mp hc
      exact ⟨d, tl, by rw [hd]⟩

theorem py_int_of_chars_natchars (m : Nat) :
    py_int_of_chars (nat_to_decimal_chars m) = some (m : Int) := by
  obtain ⟨d, tl, heq⟩ := nat_chars_cons m
  have hparse : parse_nat (digit_char d :: tl) = some m := heq ▸ parse_nat_decimal m
  rw [heq]
  simp only [py_int_of_chars]
  rw [if_neg (digit_char_not_sign d).1, if_neg (digit_char_not_sign d).2, hparse]
  rfl

theorem py_int_of_string_of_chars (s : String) (n : Int)
    (h : py_int_of_chars s.data = some n) : py_int_of_string s = .ok n := by
  unfold py_int_of_string
  rw [h]

theorem py_int_round (n : Int) : py_int_of_string (int_to_decimal n) = .ok n := by
  by_cases hn : n < 0
  · have h1 : int_to_decimal n = String.mk ('-' :: nat_to_decimal_chars n.natAbs) := by
      rw [int_to_decimal, if_pos hn]
    rw [h1]
    refine py_int_of_string_of_chars _ n ?_
    show py_int_of_chars ('-' :: nat_to_decimal_chars n.natAbs) = some n
    simp only [py_int_of_chars]
    rw [if_pos trivial, parse_nat_decimal]
    have h2 : -((n.natAbs : Nat) : Int) = n := by omega
    show some (-((n.natAbs : Nat) : Int)) = some n
    rw [h2]
  · have h1 : int_to_decimal n = String.mk (nat_to_decimal_chars n.toNat) := by
      rw [int_to_decimal, if_neg hn]
    rw [h1]
    refine py_int_of_string_of_chars _ n ?_
    show py_int_of_chars (nat_to_decimal_chars n.toNat) = some n
    rw [py_int_of_chars_natchars]
    congr 1
    exact Int.toNat_of_nonneg (by omega)

theorem deserialize_value_some (tag s : String) :
    deserialize_value tag (some s) =
      (if tag = "null" then .ok .vnone
      else if tag = "bool" then .ok (.vbool (py_lower s == "true"))
      else if tag = "int" then (py_int_of_string s).map .vint
      else if tag = "float" then .ok (.vfloat ⟨s⟩)
      else if tag = "str" then .ok (.vstr s)
      else if tag = "datetime" then .ok (.vdatetime ⟨s⟩)
      else .ok (.vstr s)) := rfl

theorem round_trip_ok (v : PyValue) : round_trip v = .ok v := by
  cases v with
  | vnone => rfl
  | vbool b => cases b <;> rfl
  | vint n =>
    show deserialize_value "int" (some (int_to_decimal n)) = .ok (.vint n)
    rw [deserialize_value_some]
    rw [if_neg (by decide), if_neg (by decide), if_pos rfl, py_int_round]
    rfl
  | vfloat f => cases f; rfl
  | vstr s =>
    show deserialize_value "str" (some s) = .ok (.vstr s)
    rw [deserialize_value_some]
    rw [if_neg (by decide), if_neg (by decide), if_neg (by decide), if_neg (by decide),
      if_pos rfl]
  | vdatetime d => cases d; rfl

/-- C1: encoding any supported value (null, bool, int, float, str,
datetime) with `serialize_value` and decoding the resulting
`(kind_tag, text)` pair with `deserialize_value` yields the same value of
the same kind; in particular the empty string round-trips to the empty
string (not null), and the round trips of `0`, `0.0`, `False` and `None`
are pairwise distinct. -/
theorem c1_codec_round_trip :
    (∀ v : PyValue, round_trip v = .ok v)
    ∧ round_trip (.vstr "") = .ok (.vstr "")
    ∧ PyValue.vstr "" ≠ .vnone
    ∧ List.Pairwise (· ≠ ·)
        [round_trip (.vint 0), round_trip (.vfloat ⟨"0.0"⟩),
         round_trip (.vbool false), round_trip .vnone] := by
  refine ⟨round_trip_ok, round_trip_ok _, by decide, ?_⟩
  rw [round_trip_ok, round_trip_ok, round_trip_ok, round_trip_ok]
  simp

/-- C9: decoding a missing (`None`) raw value yields null for every kind
tag, not just `"null"`; and any kind tag outside the known set passes the
raw text through unchanged instead of failing. -/
theorem c9_decode_missing_and_unknown :
    (∀ tag : String, deserialize_value tag none = .ok .vnone)
    ∧ (∀ tag s : String,
        tag ∉ (["null", "bool", "int", "float", "str", "datetime"] : List String) →
        deserialize_value tag (some s) = .ok (.vstr s)) := by
  refine ⟨fun _ => rfl, fun tag s h => ?_⟩
  simp only [List.mem_cons, List.not_mem_nil, or_false, not_or] at h
  obtain ⟨h1, h2, h3, h4, h5, h6⟩ := h
  rw [deserialize_value_some, if_neg h1, if_neg h2, if_neg h3, if_neg h4, if_neg h5,
    if_neg h6]

theorem c9_decode_missing_and_unknown_witness :
    deserialize_value "unknown" (some "data") = .ok (.vstr "data")
    ∧ deserialize_value "bool" none = .ok .vnone :=
  ⟨c9_decode_missing_and_unknown.2 "unknown" "data" (by decide),
   c9_decode_missing_and_unknown.1 "bool"⟩

/-- C10: decoding a present raw string under the `bool` kind tag returns
`true` exactly when the string lower-cases to `"true"`; every other text,
such as `"1"`, `"yes"` or `" true"`, decodes to `false` without error. -/
theorem c10_bool_decode_lowercase :
    (∀ s : String, deserialize_value "bool" (some s) = .ok (.vbool (py_lower s == "true")))
    ∧ (∀ s : String,
        deserialize_value "bool" (some s) = .ok (.vbool true) ↔ py_lower s = "true")
    ∧ deserialize_value "bool" (some "1") = .ok (.vbool false)
    ∧ deserialize_value "bool" (some "yes") = .ok (.vbool false)
    ∧ deserialize_value "bool" (some " true") = .ok (.vbool false)
    ∧ deserialize_value "bool" (some "True") = .ok (.vbool true) := by
  have h1 : ∀ s : String,
      deserialize_value "bool" (some s) = .ok (.vbool (py_lower s == "true")) := by
    intro s
    rw [deserialize_value_some, if_neg (by decide), if_pos rfl]
  refine ⟨h1, fun s => ?_, rfl, rfl, rfl, rfl⟩
  rw [h1 s]
  simp [beq_iff_eq]

/-- C4: `close` on the store is idempotent, and every store operation
invoked on a closed store fails with the "Storage is closed" error
instead of crashing or being silently ignored. -/
theorem c4_close_idempotent_closed_ops_fail :
    (∀ s : LocalStorage, s.close.close = s.close)
    ∧ (∀ (s : LocalStorage) (k v : String), s.close.set_meta k v = .error "Storage is closed")
    ∧ (∀ (s : LocalStorage) (k : String), s.close.get_meta k = .error "Storage is closed")
    ∧ (∀ (s : LocalStorage) (data : List (String × String × String)) (now : String),
        s.close.log_configs data now = .error "Storage is closed")
    ∧ (∀ s : LocalStorage, s.close.get_configs = .error "Storage is closed")
    ∧ (∀ (s : LocalStorage) (pts : List (String × Int × PyFloat × Int)),
        s.close.log_metric_points pts = .error "Storage is closed")
    ∧ (∀ (s : LocalStorage) (p : Option String),
        s.close.get_metric_points p = .error "Storage is closed")
    ∧ (∀ s : LocalStorage, s.close.get_metric_paths = .error "Storage is closed")
    ∧ (∀ s : LocalStorage, s.close.checkpoint_wal = .error "Storage is closed") :=
  ⟨fun _ => rfl, fun _ _ _ => rfl, fun _ _ => rfl, fun _ _ _ => rfl, fun _ => rfl,
   fun _ _ => rfl, fun _ _ => rfl, fun _ => rfl, fun _ => rfl⟩

theorem nat_to_decimal_chars_digit (n : Nat) (h : n < 10) :
    nat_to_decimal_chars n = [digit_char n] := by
  unfold nat_to_decimal_chars
  by_cases h0 : n = 0
  · subst h0; rfl
  · rw [if_neg h0]
    have : Nat.digits 10 n = [n] := by
      rw [Nat.digits_def' (by norm_num : 1 < 10) (Nat.pos_of_ne_zero h0)]
      rw [Nat.mod_eq_of_lt h, Nat.div_eq_of_lt h, Nat.digits_zero]
    rw [this]
    rfl

theorem int_to_decimal_digit (n : Nat) (h : n < 10) :
    int_to_decimal (n : Int) = String.mk [digit_char n] := by
  unfold int_to_decimal
  rw [if_neg (by omega)]
  have h1 : ((n : Int)).toNat = n := Int.toNat_natCast n
  rw [h1, nat_to_decimal_chars_digit n h]

theorem find_free_name_all_taken (fs : List String) (pf : String → String) (base : String)
    (idx : List Nat)
    (h : ∀ i ∈ idx, pf (base ++ "-" ++ int_to_decimal (i : Int)) ∈ fs) :
    find_free_name fs pf base idx = .error "Could not find a unique run name after retries" := by
  induction idx with
  | nil => rfl
  | cons i rest ih =>
    unfold find_free_name
    rw [if_pos (h i (List.mem_cons_self i rest))]
    exact ih (fun j hj => h j (List.mem_cons_of_mem i hj))

theorem find_free_name_first (fs : List String) (pf : String → String) (base : String)
    (n : Nat) (start i : Nat) (hlo : start ≤ i) (hhi : i < start + n)
    (hfree : pf (base ++ "-" ++ int_to_decimal (i : Int)) ∉ fs)
    (htaken : ∀ j, start ≤ j → j < i → pf (base ++ "-" ++ int_to_decimal (j : Int)) ∈ fs) :
    find_free_name fs pf base (List.range' start n)
      = .ok (base ++ "-" ++ int_to_decimal (i : Int),
             pf (base ++ "-" ++ int_to_decimal (i : Int))) := by
  induction n generalizing start with
  | zero => omega
  | succ m ih =>
    rw [List.range'_succ]
    unfold find_free_name
    by_cases hstart : start = i
    · subst hstart
      rw [if_neg hfree]
    · have hlt : start < i := lt_of_le_of_ne hlo hstart
      rw [if_pos (htaken start le_rfl hlt)]
      exact ih (start + 1) (by omega) (by omega)
        (fun j h1 h2 => htaken j (by omega) h2)

/-- C5: resolving a run's file path.  A free target resolves as-is.  An
explicitly requested name whose target exists resolves to the
already-exists failure (no `(name, path)` pair is produced, so nothing
gets created).  An auto-generated name whose target exists resolves to
`name-i` for the smallest free suffix `i` in `2..999`; when every suffix
in that bounded range collides, resolution fails. -/
theorem c5_resolve_db_path_collisions :
    (∀ (fs : List String) (name project : String) (auto : Bool)
        (log_dir : Option String) (home : String),
      path_for log_dir project home name ∉ fs →
      resolve_db_path fs name project auto log_dir home
        = .ok (name, path_for log_dir project home name))
    ∧ (∀ (fs : List String) (name project : String) (log_dir : Option String) (home : String),
      path_for log_dir project home name ∈ fs →
      resolve_db_path fs name project false log_dir home
        = .error ("Database already exists: " ++ path_for log_dir project home name
            ++ "\nChoose a different run_name or delete the file:\n  rm "
            ++ path_for log_dir project home name))
    ∧ (∀ (fs : List String) (name project : String) (log_dir : Option String) (home : String)
        (i : Nat),
      path_for log_dir project home name ∈ fs → 2 ≤ i → i < 1000 →
      path_for log_dir project home (name ++ "-" ++ int_to_decimal (i : Int)) ∉ fs →
      (∀ j, 2 ≤ j → j < i →
        path_for log_dir project home (name ++ "-" ++ int_to_decimal (j : Int)) ∈ fs) →
      resolve_db_path fs name project true log_dir home
        = .ok (name ++ "-" ++ int_to_decimal (i : Int),
               path_for log_dir project home (name ++ "-" ++ int_to_decimal (i : Int))))
    ∧ (∀ (fs : List String) (name project : String) (log_dir : Option String) (home : String),
      path_for log_dir project home name ∈ fs →
      (∀ j : Nat, 2 ≤ j → j < 1000 →
        path_for log_dir project home (name ++ "-" ++ int_to_decimal (j : Int)) ∈ fs) →
      resolve_db_path fs name project true log_dir home
        = .error "Could not find a unique run name after retries") := by
  refine ⟨?_, ?_, ?_, ?_⟩
  · intro fs name project auto log_dir home h
    unfold resolve_db_path
    rw [if_neg h]
  · intro fs name project log_dir home h
    unfold resolve_db_path
    rw [if_pos h]
    simp
  · intro fs name project log_dir home i hmem hlo hhi hfree htaken
    unfold resolve_db_path
    rw [if_pos hmem]
    simp only [if_true]
    exact find_free_name_first fs _ name 998 2 i hlo (by omega) hfree htaken
  · intro fs name project log_dir home hmem htaken
    unfold resolve_db_path
    rw [if_pos hmem]
    simp only [if_true]
    refine find_free_name_all_taken fs _ name _ ?_
    intro j hj
    have : 2 ≤ j ∧ j < 2 + 998 := List.mem_range'_1.mp hj
    exact htaken j this.1 (by omega)

theorem c5_resolve_db_path_collisions_witness :
    resolve_db_path ["/h/projects/p/runs/a.sqlite", "/h/projects/p/runs/a-2.sqlite"]
        "a" "p" true none "/h"
      = .ok ("a-3", "/h/projects/p/runs/a-3.sqlite")
    ∧ resolve_db_path ["/h/projects/p/runs/a.sqlite"] "a" "p" false none "/h"
      = .error ("Database already exists: /h/projects/p/runs/a.sqlite\nChoose a different run_name or delete the file:\n  rm /h/projects/p/runs/a.sqlite") := by
  have e2 : "a" ++ "-" ++ int_to_decimal ((2 : Nat) : Int) = "a-2" := by
    rw [int_to_decimal_digit 2 (by norm_num)]; decide
  have e3 : "a" ++ "-" ++ int_to_decimal ((3 : Nat) : Int) = "a-3" := by
    rw [int_to_decimal_digit 3 (by norm_num)]; decide
  constructor
  · have h := c5_resolve_db_path_collisions.2.2.1
      ["/h/projects/p/runs/a.sqlite", "/h/projects/p/runs/a-2.sqlite"]
      "a" "p" none "/h" 3 (by decide) (by omega) (by omega)
      (by rw [e3]; decide)
      (by
        intro j h1 h2
        have hj : j = 2 := by omega
        subst hj
        rw [e2]; decide)
    rw [e3] at h
    have hp : path_for none "p" "/h" "a-3" = "/h/projects/p/runs/a-3.sqlite" := by decide
    rw [hp] at h
    exact h
  · have h := c5_resolve_db_path_collisions.2.1
      ["/h/projects/p/runs/a.sqlite"] "a" "p" none "/h" (by decide)
    have hp : path_for none "p" "/h" "a" = "/h/projects/p/runs/a.sqlite" := by decide
    rw [hp] at h
    have hmsg : ("Database already exists: " ++ "/h/projects/p/runs/a.sqlite"
        ++ "\nChoose a different run_name or delete the file:\n  rm "
        ++ "/h/projects/p/runs/a.sqlite")
      = "Database already exists: /h/projects/p/runs/a.sqlite\nChoose a different run_name or delete the file:\n  rm /h/projects/p/runs/a.sqlite" := by decide
    rw [hmsg] at h
    exact h

theorem flatten_total_aux : ∀ N : Nat,
    (∀ (data : PyDict) (pk sep : String), sizeOf data < N →
      ∃ out, flatten_dict data pk sep true = .ok out)
    ∧ (∀ (items : PyList) (nk sep : String) (i : Nat), sizeOf items < N →
      ∃ out, flatten_list_items items nk sep true i = .ok out) := by
  intro N
  induction N using Nat.strong_induction_on with
  | _ N IH =>
    constructor
    · intro data pk sep hN
      match data with
      | .nil => exact ⟨[], by simp [flatten_dict]⟩
      | .cons key value rest =>
        have hrest : sizeOf rest < sizeOf (PyDict.cons key value rest) := by simp <;> omega
        cases value with
        | dict d =>
          have hd : sizeOf d < sizeOf (PyDict.cons key (PyObj.dict d) rest) := by simp <;> omega
          obtain ⟨o1, e1⟩ := (IH _ hN).1 d (if pk = "" then key else pk ++ sep ++ key) sep hd
          obtain ⟨o2, e2⟩ := (IH _ hN).1 rest pk sep hrest
          exact ⟨o1 ++ o2, by simp [flatten_dict, bind, Except.bind, e1, e2]⟩
        | list items =>
          have hi : sizeOf items < sizeOf (PyDict.cons key (PyObj.list items) rest) := by simp <;> omega
          obtain ⟨o1, e1⟩ :=
            (IH _ hN).2 items (if pk = "" then key else pk ++ sep ++ key) sep 0 hi
          obtain ⟨o2, e2⟩ := (IH _ hN).1 rest pk sep hrest
          exact ⟨o1 ++ o2, by simp [flatten_dict, bind, Except.bind, e1, e2]⟩
        | supported v =>
          obtain ⟨o2, e2⟩ := (IH _ hN).1 rest pk sep hrest
          exact ⟨((if pk = "" then key else pk ++ sep ++ key), v) :: o2,
            by simp [flatten_dict, bind, Except.bind, e2]⟩
        | other ty tx =>
          obtain ⟨o2, e2⟩ := (IH _ hN).1 rest pk sep hrest
          exact ⟨((if pk = "" then key else pk ++ sep ++ key),
              PyValue.vstr (cast_to_string (.other ty tx))) :: o2,
            by simp [flatten_dict, bind, Except.bind, e2]⟩
    · intro items nk sep i hN
      match items with
      | .nil => exact ⟨[], by simp [flatten_list_items]⟩
      | .cons item rest =>
        have hrest : sizeOf rest < sizeOf (PyList.cons item rest) := by simp <;> omega
        cases item with
        | dict d =>
          have hd : sizeOf d < sizeOf (PyList.cons (PyObj.dict d) rest) := by simp <;> omega
          obtain ⟨o1, e1⟩ :=
            (IH _ hN).1 d (nk ++ "/" ++ int_to_decimal i) sep hd
          obtain ⟨o2, e2⟩ := (IH _ hN).2 rest nk sep (i + 1) hrest
          exact ⟨o1 ++ o2, by simp [flatten_list_items, bind, Except.bind, e1, e2]⟩
        | list items2 =>
          obtain ⟨o2, e2⟩ := (IH _ hN).2 rest nk sep (i + 1) hrest
          exact ⟨(nk ++ "/" ++ int_to_decimal i,
              PyValue.vstr (cast_to_string (.list items2))) :: o2,
            by simp [flatten_list_items, bind, Except.bind, e2]⟩
        | supported v =>
          obtain ⟨o2, e2⟩ := (IH _ hN).2 rest nk sep (i + 1) hrest
          exact ⟨(nk ++ "/" ++ int_to_decimal i, v) :: o2,
            by simp [flatten_list_items, bind, Except.bind, e2]⟩
        | other ty tx =>
          obtain ⟨o2, e2⟩ := (IH _ hN).2 rest nk sep (i + 1) hrest
          exact ⟨(nk ++ "/" ++ int_to_decimal i,
              PyValue.vstr (cast_to_string (.other ty tx))) :: o2,
            by simp [flatten_list_items, bind, Except.bind, e2]⟩

theorem flatten_dict_total (data : PyDict) (pk sep : String) :
    ∃ out, flatten_dict data pk sep true = .ok out :=
  (flatten_total_aux (sizeOf data + 1)).1 data pk sep (by omega)

theorem int_to_decimal_zero : int_to_decimal (0 : Int) = "0" := by
  have h := int_to_decimal_digit 0 (by norm_num)
  rw [Nat.cast_zero] at h
  rw [h]; decide

theorem int_to_decimal_one : int_to_decimal (1 : Int) = "1" := by
  have h := int_to_decimal_digit 1 (by norm_num)
  rw [Nat.cast_one] at h
  rw [h]; decide

/-- C7 (counterexample): on the nested tree of maps and sequences
`\x7b"a": [[1]]\x7d`, default-mode flattening does not produce the flat
mapping `\x7b"a/0/0": 1\x7d` — a sequence nested directly inside a
sequence is rejected as an unsupported value. -/
theorem c7_flatten_nested_sequence_rejected :
    flatten_dict
        (.cons "a" (PyObj.list (.cons (PyObj.list (.cons (PyObj.supported (.vint 1)) .nil)) .nil)) .nil)
        "" "/" false
      = .error "Unsupported type list at a/0" := by
  simp only [flatten_dict, flatten_list_items, bind, Except.bind]
  simp [int_to_decimal_zero]

/-- C7 (amended): flattening recurses into nested maps with `sep`-joined
keys and expands sequence values item by item under `key/i` keys; map
items of a sequence are recursed into, while a sequence item that is
itself a sequence counts as unsupported; any non-leaf, non-map,
non-sequence value is rejected with a `TypeError` by default and coerced
to its string form under the `cast_unsupported` opt-in, under which
flattening is total.  The two spec examples hold as stated. -/
theorem c7_flatten_dict_behavior :
    flatten_dict (.cons "model" (.dict (.cons "hidden" (.supported (.vint 256))
        (.cons "layers" (.supported (.vint 4)) .nil))) .nil) "" "/" false
      = .ok [("model/hidden", .vint 256), ("model/layers", .vint 4)]
    ∧ flatten_dict (.cons "tags" (.list (.cons (.supported (.vint 10))
        (.cons (.supported (.vint 20)) .nil))) .nil) "" "/" false
      = .ok [("tags/0", .vint 10), ("tags/1", .vint 20)]
    ∧ (∀ (k ty tx sep pk : String) (rest : PyDict),
        flatten_dict (.cons k (.other ty tx) rest) pk sep false
          = .error ("Unsupported type " ++ ty ++ " at "
              ++ (if pk = "" then k else pk ++ sep ++ k)))
    ∧ (∀ (k ty tx sep pk : String) (rest : PyDict),
        flatten_dict (.cons k (.other ty tx) rest) pk sep true
          = (flatten_dict rest pk sep true).map
              (fun tail => ((if pk = "" then k else pk ++ sep ++ k),
                PyValue.vstr (cast_to_string (.other ty tx))) :: tail))
    ∧ (∀ (nk sep : String) (i : Nat) (items2 : PyList) (rest : PyList),
        flatten_list_items (.cons (PyObj.list items2) rest) nk sep false i
          = .error ("Unsupported type list at " ++ nk ++ "/" ++ int_to_decimal i))
    ∧ (∀ (data : PyDict) (pk sep : String),
        ∃ out, flatten_dict data pk sep true = .ok out) := by
  refine ⟨?_, ?_, ?_, ?_, ?_, flatten_dict_total⟩
  · simp [flatten_dict, flatten_list_items, bind, Except.bind]
  · simp only [flatten_dict, flatten_list_items, bind, Except.bind]
    simp [int_to_decimal_zero, int_to_decimal_one]
  · intro k ty tx sep pk rest
    simp [flatten_dict, bind, Except.bind]
  · intro k ty tx sep pk rest
    rcases h : flatten_dict rest pk sep true with e | out
    · simp [flatten_dict, bind, Except.bind, Except.map, h]
    · simp [flatten_dict, bind, Except.bind, Except.map, h]
  · intro nk sep i items2 rest
    simp [flatten_list_items, bind, Except.bind, String.append_assoc]

theorem assoc_lookup_table_upsert {κ β : Type} [BEq κ] [LawfulBEq κ]
    (l : List (κ × β)) (k : κ) (v : β) :
    assoc_lookup (table_upsert l k v) k = some v := by
  induction l with
  | nil => simp [table_upsert, assoc_lookup]
  | cons e rest ih =>
    by_cases h : e.1 == k
    · have : table_upsert (e :: rest) k v = table_upsert rest k v := by
        simp only [table_upsert, List.filter_cons]
        rw [if_neg (by simpa using h)]
      rw [this, ih]
    · have : table_upsert (e :: rest) k v = e :: table_upsert rest k v := by
        simp only [table_upsert, List.filter_cons]
        rw [if_pos (by simpa using h)]
        rfl
      rw [this]
      show assoc_lookup ((e.1, e.2) :: table_upsert rest k v) k = some v
      unfold assoc_lookup
      rw [if_neg (by simpa using h)]
      exact ih

theorem py_str_other (ty tx : String) : py_str (PyObj.other ty tx) = tx := by
  simp [py_str, py_repr]

/-- C3 (counterexample): on the non-flattened config path, logging an
unsupported value (an arbitrary object) with no opt-in flag does not
fail: it succeeds and stores the value silently coerced to its string
form under the `str` tag. -/
theorem c3_unflattened_path_no_failure :
    Run.log_configs ⟨false, LocalStorage.init⟩
        (.cons "xs" (PyObj.other "object" "<object object at 0x0>") .nil) false "T0"
      = .ok ⟨false, { LocalStorage.init with
          configs := [("xs", ⟨"str", some "<object object at 0x0>", "T0"⟩)] }⟩ := by
  have h1 : py_str (PyObj.other "object" "<object object at 0x0>")
      = "<object object at 0x0>" := py_str_other _ _
  have h2 : normalize_path "xs" = "xs" := by decide
  simp [Run.log_configs, PyDict.toList, LocalStorage.log_configs, LocalStorage.init,
    serialize_value, h1, h2, table_upsert]

/-- C3 (amended): on the flattened config path the write fails fast — a
flattener rejection surfaces from `log_configs` before anything is
stored, and the flattener itself rejects unsupported values by default
and coerces them to strings only under its explicit `cast_unsupported`
opt-in (which `Run.log_configs` does not expose).  On the non-flattened
path there is no failure: `serialize_value` silently coerces any
unsupported value to its string form, which is stored under the `str`
tag. -/
theorem c3_unsupported_value_write_paths :
    (∀ (r : Run) (data : PyDict) (e now : String),
      r.closed = false →
      flatten_dict data "" "/" false = .error e →
      Run.log_configs r data true now = .error e)
    ∧ (∀ (k ty tx sep pk : String) (rest : PyDict),
        flatten_dict (.cons k (.other ty tx) rest) pk sep false
          = .error ("Unsupported type " ++ ty ++ " at "
              ++ (if pk = "" then k else pk ++ sep ++ k)))
    ∧ (∀ (k ty tx sep pk : String) (rest : PyDict),
        flatten_dict (.cons k (.other ty tx) rest) pk sep true
          = (flatten_dict rest pk sep true).map
              (fun tail => ((if pk = "" then k else pk ++ sep ++ k),
                PyValue.vstr (cast_to_string (.other ty tx))) :: tail))
    ∧ (∀ (r : Run) (k ty tx now : String),
        r.closed = false → r.storage.closed = false →
        Run.log_configs r (.cons k (.other ty tx) .nil) false now
          = .ok { r with storage := { r.storage with
              configs := table_upsert r.storage.configs (normalize_path k)
                ⟨"str", some tx, now⟩ } }) := by
  refine ⟨?_, ?_, ?_, ?_⟩
  · intro r data e now hr hf
    unfold Run.log_configs
    rw [hr]
    simp [hf, Except.map]
  · intro k ty tx sep pk rest
    simp [flatten_dict, bind, Except.bind]
  · intro k ty tx sep pk rest
    rcases h : flatten_dict rest pk sep true with e | out
    · simp [flatten_dict, bind, Except.bind, Except.map, h]
    · simp [flatten_dict, bind, Except.bind, Except.map, h]
  · intro r k ty tx now hr hs
    unfold Run.log_configs
    rw [hr]
    simp only [Bool.false_eq_true, if_false]
    unfold LocalStorage.log_configs
    rw [hs]
    simp [PyDict.toList, serialize_value, py_str_other]

theorem c3_unsupported_value_write_paths_witness :
    Run.log_configs ⟨false, LocalStorage.init⟩
        (.cons "a" (PyObj.other "object" "<obj>") .nil) true "T0"
      = .error "Unsupported type object at a"
    ∧ Run.log_configs ⟨false, LocalStorage.init⟩
        (.cons "b" (PyObj.other "object" "<obj>") .nil) false "T0"
      = .ok ⟨false, { LocalStorage.init with
          configs := table_upsert LocalStorage.init.configs (normalize_path "b")
            ⟨"str", some "<obj>", "T0"⟩ }⟩ := by
  constructor
  · have h := c3_unsupported_value_write_paths.1 ⟨false, LocalStorage.init⟩
      (.cons "a" (PyObj.other "object" "<obj>") .nil) "Unsupported type object at a" "T0" rfl
      (by
        have h2 := c3_unsupported_value_write_paths.2.1 "a" "object" "<obj>" "/" "" .nil
        rw [h2]
        simp)
    exact h
  · exact c3_unsupported_value_write_paths.2.2.2 ⟨false, LocalStorage.init⟩
      "b" "object" "<obj>" "T0" rfl rfl

theorem mem_of_assoc_lookup {κ β : Type} [BEq κ] [LawfulBEq κ]
    {l : List (κ × β)} {k : κ} {v : β} (h : assoc_lookup l k = some v) : (k, v) ∈ l := by
  induction l with
  | nil => simp [assoc_lookup] at h
  | cons e rest ih =>
    obtain ⟨k', v'⟩ := e
    unfold assoc_lookup at h
    by_cases hk : k' == k
    · rw [if_pos hk] at h
      have hv : v' = v := by injection h
      have hkk : k' = k := by simpa using hk
      subst hv; subst hkk
      exact List.mem_cons_self _ _
    · rw [if_neg hk] at h
      exact List.mem_cons_of_mem _ (ih h)

theorem assoc_lookup_of_mem {κ β : Type} [BEq κ] [LawfulBEq κ]
    {l : List (κ × β)} {k : κ} {v : β} (h : (k, v) ∈ l) :
    ∃ w, assoc_lookup l k = some w := by
  induction l with
  | nil => simp at h
  | cons e rest ih =>
    obtain ⟨k', v'⟩ := e
    by_cases hk : k' == k
    · exact ⟨v', by unfold assoc_lookup; rw [if_pos hk]⟩
    · rcases List.mem_cons.mp h with h1 | h2
      · exfalso
        apply hk
        have hke : k = k' := congrArg Prod.fst h1
        simp [hke]
      · obtain ⟨w, hw⟩ := ih h2
        exact ⟨w, by unfold assoc_lookup; rw [if_neg hk]; exact hw⟩

theorem snd_unique_of_fst_nodup {α β : Type} {l : List (α × β)} {p : α} {a b : β}
    (hpaths : (l.map Prod.fst).Nodup) (ha : (p, a) ∈ l) (hb : (p, b) ∈ l) : a = b := by
  induction l with
  | nil => simp at ha
  | cons e rest ih =>
    rw [List.map_cons, List.nodup_cons] at hpaths
    rcases List.mem_cons.mp ha with ha1 | ha2 <;> rcases List.mem_cons.mp hb with hb1 | hb2
    · rw [← ha1] at hb1
      injection hb1 with h1 h2
      exact h2.symm
    · exfalso
      refine hpaths.1 ?_
      rw [← ha1]
      exact List.mem_map.mpr ⟨(p, b), hb2, rfl⟩
    · exfalso
      refine hpaths.1 ?_
      rw [← hb1]
      exact List.mem_map.mpr ⟨(p, a), ha2, rfl⟩
    · exact ih hpaths.2 ha2 hb2

theorem find?_by_series_id {l : List (String × Nat)} {p : String} {sid : Nat}
    (hids : (l.map Prod.snd).Nodup) (hmem : (p, sid) ∈ l) :
    l.find? (fun e => e.2 == sid) = some (p, sid) := by
  induction l with
  | nil => simp at hmem
  | cons e rest ih =>
    rw [List.map_cons, List.nodup_cons] at hids
    rcases List.mem_cons.mp hmem with h1 | h2
    · rw [← h1]
      exact List.find?_cons_of_pos _ (by simp)
    · by_cases he : e.2 == sid
      · exfalso
        refine hids.1 ?_
        have : e.2 = sid := by simpa using he
        rw [this]
        exact List.mem_map.mpr ⟨(p, sid), h2, rfl⟩
      · rw [List.find?_cons_of_neg _ (by simpa using he)]
        exact ih hids.2 h2

theorem get_series_id_of_mem (s : LocalStorage) (p : String) (sid : Nat)
    (hpaths : (s.metric_series.map Prod.fst).Nodup)
    (hcache : ∀ e ∈ s.series_cache, e ∈ s.metric_series)
    (hmem : (p, sid) ∈ s.metric_series) :
    ∃ s1, s.get_series_id p = (sid, s1)
      ∧ s1.metric_series = s.metric_series
      ∧ s1.metric_points = s.metric_points
      ∧ s1.closed = s.closed := by
  unfold LocalStorage.get_series_id
  rcases hc : assoc_lookup s.series_cache p with _ | sid'
  · rcases ht : assoc_lookup s.metric_series p with _ | sid''
    · exfalso
      obtain ⟨w, hw⟩ := assoc_lookup_of_mem hmem
      rw [ht] at hw
      exact Option.noConfusion hw
    · have h1 : (p, sid'') ∈ s.metric_series := mem_of_assoc_lookup ht
      have h2 : sid'' = sid := snd_unique_of_fst_nodup hpaths h1 hmem
      subst h2
      exact ⟨_, rfl, rfl, rfl, rfl⟩
  · have h1 : (p, sid') ∈ s.series_cache := mem_of_assoc_lookup hc
    have h2 : (p, sid') ∈ s.metric_series := hcache _ h1
    have h3 : sid' = sid := snd_unique_of_fst_nodup hpaths h2 hmem
    subst h3
    exact ⟨s, rfl, rfl, rfl, rfl⟩

theorem join_rows_upsert_filter
    (series : List (String × Nat)) (points : List ((Nat × Int) × (PyFloat × Int)))
    (p : String) (sid : Nat) (st : Int) (y : PyFloat) (t : Int)
    (hpaths : (series.map Prod.fst).Nodup) (hids : (series.map Prod.snd).Nodup)
    (hmem : (p, sid) ∈ series) :
    (join_rows series (table_upsert points (sid, st) (y, t))).filter
      (fun r => r.path == p && r.step == st) = [⟨p, st, y, t⟩] := by
  unfold table_upsert join_rows
  rw [List.filterMap_append, List.filter_append]
  have hA : ((points.filter (fun e => e.1 != (sid, st))).filterMap (join_row series)).filter
      (fun r => r.path == p && r.step == st) = [] := by
    rw [List.filter_eq_nil_iff]
    intro row hrow
    obtain ⟨pt, hptmem, hf⟩ := List.mem_filterMap.mp hrow
    obtain ⟨hptpts, hptkey⟩ := List.mem_filter.mp hptmem
    unfold join_row at hf
    rcases hfind : series.find? (fun e => e.2 == pt.1.1) with _ | e
    · rw [hfind] at hf
      exact Option.noConfusion hf
    · rw [hfind] at hf
      have hrow_eq : row = ⟨e.1, pt.1.2, pt.2.1, pt.2.2⟩ := by
        have := hf.symm
        simpa using this
      have he_mem : e ∈ series := List.mem_of_find?_eq_some hfind
      have he_id : e.2 = pt.1.1 := by simpa using List.find?_some hfind
      intro hpred
      rw [hrow_eq] at hpred
      simp only [Bool.and_eq_true, beq_iff_eq] at hpred
      obtain ⟨hpath, hstep⟩ := hpred
      have he_pair : (p, e.2) ∈ series := by
        have he_eta : e = (p, e.2) := by rw [← hpath]
        rw [← he_eta]
        exact he_mem
      have hsid_eq : e.2 = sid := snd_unique_of_fst_nodup hpaths he_pair hmem
      have hkey : pt.1 = (sid, st) := by
        have h1 : pt.1.1 = sid := by rw [← he_id]; exact hsid_eq
        have h2 : pt.1.2 = st := hstep
        obtain ⟨⟨pa, pb⟩, pc⟩ := pt
        simp only at h1 h2
        rw [h1, h2]
      simp [hkey] at hptkey
  have hB : (List.filterMap (join_row series) [((sid, st), (y, t))]).filter
      (fun r => r.path == p && r.step == st) = [⟨p, st, y, t⟩] := by
    have hfind : series.find? (fun e => e.2 == sid) = some (p, sid) :=
      find?_by_series_id hids hmem
    simp [List.filterMap, join_row, hfind]
  rw [hA, hB]
  rfl

/-- C2: the store keeps at most one metric point per `(series, step)`
pair.  In any store state whose series table satisfies the schema
invariants (`UNIQUE` paths, unique `AUTOINCREMENT` ids, cache entries
backed by the table), writing a point at a `(path, step)` that already
has a point leaves exactly one point for that `(path, step)` — the one
carrying the later value — in the retrieved rows. -/
theorem c2_metric_point_overwrite
    (s : LocalStorage) (hclosed : s.closed = false)
    (hpaths : (s.metric_series.map Prod.fst).Nodup)
    (hids : (s.metric_series.map Prod.snd).Nodup)
    (hcache : ∀ e ∈ s.series_cache, e ∈ s.metric_series)
    (p : String) (sid : Nat) (hsid : (p, sid) ∈ s.metric_series)
    (st : Int) (y0 : PyFloat) (t0 : Int)
    (hpt : ((sid, st), (y0, t0)) ∈ s.metric_points)
    (y : PyFloat) (t : Int) :
    ((s.log_metric_points [(p, st, y, t)]).bind
        (fun s2 => s2.get_metric_points (some p))).map
      (fun rows => rows.filter (fun r => r.path == p && r.step == st))
      = .ok [⟨p, st, y, t⟩] := by
  obtain ⟨s1, hg, hser, hpts, hcl⟩ := get_series_id_of_mem s p sid hpaths hcache hsid
  have hlog : s.log_metric_points [(p, st, y, t)]
      = .ok { s1 with metric_points := table_upsert s1.metric_points (sid, st) (y, t) } := by
    unfold LocalStorage.log_metric_points
    rw [hclosed]
    simp only [Bool.false_eq_true, if_false, List.foldl_cons, List.foldl_nil, hg]
  rw [hlog]
  simp only [Except.bind]
  have hfil : (join_rows s.metric_series
        (table_upsert s.metric_points (sid, st) (y, t))).filter
      (fun r => r.path == p && r.step == st) = [⟨p, st, y, t⟩] :=
    join_rows_upsert_filter s.metric_series s.metric_points p sid st y t hpaths hids hsid
  have hc2 : ({ s1 with metric_points := table_upsert s1.metric_points (sid, st) (y, t)
      } : LocalStorage).closed = false := by
    show s1.closed = false
    rw [hcl, hclosed]
  unfold LocalStorage.get_metric_points
  rw [hc2]
  simp only [Bool.false_eq_true, if_false]
  by_cases hp : p = ""
  · rw [if_pos hp]
    simp only [Except.map, hser, hpts]
    congr 1
    have hperm : List.Perm
        ((sort_by_path_step (join_rows s.metric_series
            (table_upsert s.metric_points (sid, st) (y, t)))).filter
          (fun r => r.path == p && r.step == st))
        ((join_rows s.metric_series
            (table_upsert s.metric_points (sid, st) (y, t))).filter
          (fun r => r.path == p && r.step == st)) :=
      List.Perm.filter _ (List.perm_insertionSort _ _)
    rw [hfil] at hperm
    exact List.perm_singleton.mp hperm
  · rw [if_neg hp]
    simp only [Except.map, hser, hpts]
    congr 1
    have hpp : (fun (r : MetricRow) => (r.path == p && r.step == st) && (r.path == p))
        = (fun r => r.path == p && r.step == st) := by
      funext r
      cases h1 : (r.path == p) <;> cases h2 : (r.step == st) <;> simp [h1, h2]
    have hperm : List.Perm
        ((sort_by_step ((join_rows s.metric_series
            (table_upsert s.metric_points (sid, st) (y, t))).filter
              (fun r => r.path == p))).filter
          (fun r => r.path == p && r.step == st))
        (((join_rows s.metric_series
            (table_upsert s.metric_points (sid, st) (y, t))).filter
              (fun r => r.path == p)).filter
          (fun r => r.path == p && r.step == st)) :=
      List.Perm.filter _ (List.perm_insertionSort _ _)
    rw [List.filter_filter, hpp, hfil] at hperm
    exact List.perm_singleton.mp hperm

theorem c2_metric_point_overwrite_witness :
    ((LocalStorage.log_metric_points
        ⟨false, [], [], [("loss", 1)], 2, [((1, 1), (⟨"0.9"⟩, 100))], [("loss", 1)]⟩
        [("loss", 1, ⟨"0.7"⟩, 200)]).bind
      (fun s2 => s2.get_metric_points (some "loss"))).map
      (fun rows => rows.filter (fun r => r.path == "loss" && r.step == 1))
      = .ok [⟨"loss", 1, ⟨"0.7"⟩, 200⟩] :=
  c2_metric_point_overwrite
    ⟨false, [], [], [("loss", 1)], 2, [((1, 1), (⟨"0.9"⟩, 100))], [("loss", 1)]⟩
    rfl (by decide) (by decide) (by decide)
    "loss" 1 (by decide) 1 ⟨"0.9"⟩ 100 (by decide) ⟨"0.7"⟩ 200

theorem match_route_sub_ne_runs {segs : List String} {tail p r : String}
    (h : match_route_sub segs tail = some (p, r)) : match_route_runs segs = false := by
  unfold match_route_sub at h
  split at h
  · rename_i project run_name t
    simp [match_route_runs]
  · exact Option.noConfusion h

theorem match_route_sub_tail_ne {segs : List String} {t1 t2 p r : String}
    (h : match_route_sub segs t1 = some (p, r)) (hne : t1 ≠ t2) :
    match_route_sub segs t2 = none := by
  unfold match_route_sub at h ⊢
  split at h
  · rename_i project run_name t
    by_cases hc : (t == t1 && project != "" && run_name != "") = true
    · have ht : t = t1 := by
        have := hc
        simp only [Bool.and_eq_true, beq_iff_eq] at this
        exact this.1.1
      rw [if_neg]
      simp only [Bool.and_eq_true, beq_iff_eq]
      intro hcon
      exact hne (ht ▸ hcon.1.1)
    · rw [if_neg hc] at h
      exact Option.noConfusion h
  · rfl

theorem do_GET_configs_route (w : ServerWorld) (segs : List String) (q : Option String)
    (p r : String) (h : match_route_sub segs "configs" = some (p, r)) :
    do_GET w segs q =
      (match resolve_run_db w p r with
      | none => send_error 404 ("Run not found: " ++ p ++ "/" ++ r)
      | some db_path =>
        match get_configs_api w db_path with
        | .ok cs => ⟨200, .configs cs⟩
        | .error e => send_error 500 e) := by
  unfold do_GET
  rw [match_route_sub_ne_runs h]
  simp only [Bool.false_eq_true, if_false]
  rw [h]

theorem do_GET_metrics_route (w : ServerWorld) (segs : List String) (q : Option String)
    (p r : String) (h : match_route_sub segs "metrics" = some (p, r)) :
    do_GET w segs q =
      (match resolve_run_db w p r with
      | none => send_error 404 ("Run not found: " ++ p ++ "/" ++ r)
      | some db_path =>
        match w.metric_rows db_path q with
        | .ok ms => ⟨200, .metrics ms⟩
        | .error e => send_error 500 e) := by
  unfold do_GET
  rw [match_route_sub_ne_runs h]
  simp only [Bool.false_eq_true, if_false]
  rw [match_route_sub_tail_ne h (by decide), h]

theorem do_GET_metric_paths_route (w : ServerWorld) (segs : List String) (q : Option String)
    (p r : String) (h : match_route_sub segs "metric-paths" = some (p, r)) :
    do_GET w segs q =
      (match resolve_run_db w p r with
      | none => send_error 404 ("Run not found: " ++ p ++ "/" ++ r)
      | some db_path =>
        match w.metric_path_rows db_path with
        | .ok ps => ⟨200, .paths ps⟩
        | .error e => send_error 500 e) := by
  unfold do_GET
  rw [match_route_sub_ne_runs h]
  simp only [Bool.false_eq_true, if_false]
  rw [match_route_sub_tail_ne h (by decide), match_route_sub_tail_ne h (by decide), h]

/-- C6: error handling of the GET router.  An unmatched path is a 404
`"Not found"`.  On each per-run route, a `(project, run)` pair whose file
is absent under the expected path convention is a 404 whose body is a
JSON object with an `error` field — never a 500.  Any failure inside a
store-reading helper (including the scan behind `/api/runs`) surfaces as
a 500 whose body carries exactly the exception message — a JSON `error`
field, not a stack trace. -/
theorem c6_do_GET_error_handling :
    (∀ (w : ServerWorld) (segs : List String) (q : Option String),
      match_route_runs segs = false →
      match_route_sub segs "configs" = none →
      match_route_sub segs "metrics" = none →
      match_route_sub segs "metric-paths" = none →
      do_GET w segs q = ⟨404, .error_field "Not found"⟩)
    ∧ (∀ (w : ServerWorld) (segs : List String) (q : Option String) (p r : String),
      match_route_sub segs "configs" = some (p, r) →
      w.file_exists (w.projects_dir ++ "/" ++ p ++ "/runs/" ++ r ++ ".sqlite") = false →
      do_GET w segs q = ⟨404, .error_field ("Run not found: " ++ p ++ "/" ++ r)⟩)
    ∧ (∀ (w : ServerWorld) (segs : List String) (q : Option String) (p r : String),
      match_route_sub segs "metrics" = some (p, r) →
      w.file_exists (w.projects_dir ++ "/" ++ p ++ "/runs/" ++ r ++ ".sqlite") = false →
      do_GET w segs q = ⟨404, .error_field ("Run not found: " ++ p ++ "/" ++ r)⟩)
    ∧ (∀ (w : ServerWorld) (segs : List String) (q : Option String) (p r : String),
      match_route_sub segs "metric-paths" = some (p, r) →
      w.file_exists (w.projects_dir ++ "/" ++ p ++ "/runs/" ++ r ++ ".sqlite") = false →
      do_GET w segs q = ⟨404, .error_field ("Run not found: " ++ p ++ "/" ++ r)⟩)
    ∧ (∀ (w : ServerWorld) (segs : List String) (q : Option String) (p r e : String),
      match_route_sub segs "configs" = some (p, r) →
      w.file_exists (w.projects_dir ++ "/" ++ p ++ "/runs/" ++ r ++ ".sqlite") = true →
      get_configs_api w (w.projects_dir ++ "/" ++ p ++ "/runs/" ++ r ++ ".sqlite") = .error e →
      do_GET w segs q = ⟨500, .error_field e⟩)
    ∧ (∀ (w : ServerWorld) (segs : List String) (q : Option String) (p r e : String),
      match_route_sub segs "metrics" = some (p, r) →
      w.file_exists (w.projects_dir ++ "/" ++ p ++ "/runs/" ++ r ++ ".sqlite") = true →
      w.metric_rows (w.projects_dir ++ "/" ++ p ++ "/runs/" ++ r ++ ".sqlite") q = .error e →
      do_GET w segs q = ⟨500, .error_field e⟩)
    ∧ (∀ (w : ServerWorld) (segs : List String) (q : Option String) (p r e : String),
      match_route_sub segs "metric-paths" = some (p, r) →
      w.file_exists (w.projects_dir ++ "/" ++ p ++ "/runs/" ++ r ++ ".sqlite") = true →
      w.metric_path_rows (w.projects_dir ++ "/" ++ p ++ "/runs/" ++ r ++ ".sqlite") = .error e →
      do_GET w segs q = ⟨500, .error_field e⟩)
    ∧ (∀ (w : ServerWorld) (segs : List String) (q : Option String) (e : String),
      match_route_runs segs = true →
      w.scanned_runs = .error e →
      do_GET w segs q = ⟨500, .error_field e⟩) := by
  have hres_none : ∀ (w : ServerWorld) (p r : String),
      w.file_exists (w.projects_dir ++ "/" ++ p ++ "/runs/" ++ r ++ ".sqlite") = false →
      resolve_run_db w p r = none := by
    intro w p r hx
    unfold resolve_run_db
    simp [hx]
  have hres_some : ∀ (w : ServerWorld) (p r : String),
      w.file_exists (w.projects_dir ++ "/" ++ p ++ "/runs/" ++ r ++ ".sqlite") = true →
      resolve_run_db w p r
        = some (w.projects_dir ++ "/" ++ p ++ "/runs/" ++ r ++ ".sqlite") := by
    intro w p r hx
    unfold resolve_run_db
    simp [hx]
  refine ⟨?_, ?_, ?_, ?_, ?_, ?_, ?_, ?_⟩
  · intro w segs q h1 h2 h3 h4
    unfold do_GET
    rw [h1]
    simp only [Bool.false_eq_true, if_false]
    rw [h2, h3, h4]
    rfl
  · intro w segs q p r h hx
    rw [do_GET_configs_route w segs q p r h, hres_none w p r hx]
    rfl
  · intro w segs q p r h hx
    rw [do_GET_metrics_route w segs q p r h, hres_none w p r hx]
    rfl
  · intro w segs q p r h hx
    rw [do_GET_metric_paths_route w segs q p r h, hres_none w p r hx]
    rfl
  · intro w segs q p r e h hx he
    rw [do_GET_configs_route w segs q p r h, hres_some w p r hx]
    show (match get_configs_api w (w.projects_dir ++ "/" ++ p ++ "/runs/" ++ r ++ ".sqlite") with
      | .ok cs => ({ status := 200, body := .configs cs } : HttpResponse)
      | .error e => send_error 500 e) = _
    rw [he]
    rfl
  · intro w segs q p r e h hx he
    rw [do_GET_metrics_route w segs q p r h, hres_some w p r hx]
    show (match w.metric_rows (w.projects_dir ++ "/" ++ p ++ "/runs/" ++ r ++ ".sqlite") q with
      | .ok ms => ({ status := 200, body := .metrics ms } : HttpResponse)
      | .error e => send_error 500 e) = _
    rw [he]
    rfl
  · intro w segs q p r e h hx he
    rw [do_GET_metric_paths_route w segs q p r h, hres_some w p r hx]
    show (match w.metric_path_rows (w.projects_dir ++ "/" ++ p ++ "/runs/" ++ r ++ ".sqlite") with
      | .ok ps => ({ status := 200, body := .paths ps } : HttpResponse)
      | .error e => send_error 500 e) = _
    rw [he]
    rfl
  · intro w segs q e h1 h2
    unfold do_GET
    rw [h1]
    simp only [if_true]
    rw [h2]
    rfl

theorem c6_do_GET_error_handling_witness :
    do_GET ⟨"/data", fun _ => false, .ok [], fun _ => .ok [], fun _ _ => .ok [], fun _ => .ok []⟩
        ["", "api", "unknown"] none = ⟨404, .error_field "Not found"⟩
    ∧ do_GET ⟨"/data", fun _ => false, .ok [], fun _ => .ok [], fun _ _ => .ok [], fun _ => .ok []⟩
        ["", "api", "runs", "default", "ghost", "configs"] none
      = ⟨404, .error_field ("Run not found: " ++ "default" ++ "/" ++ "ghost")⟩
    ∧ do_GET ⟨"/data", fun _ => true, .error "boom", fun _ => .error "db locked",
          fun _ _ => .error "db locked", fun _ => .error "db locked"⟩
        ["", "api", "runs", "default", "r1", "configs"] none
      = ⟨500, .error_field "db locked"⟩
    ∧ do_GET ⟨"/data", fun _ => true, .error "boom", fun _ => .error "db locked",
          fun _ _ => .error "db locked", fun _ => .error "db locked"⟩
        ["", "api", "runs"] none
      = ⟨500, .error_field "boom"⟩ :=
  ⟨c6_do_GET_error_handling.1 _ ["", "api", "unknown"] none (by decide) (by decide)
      (by decide) (by decide),
   c6_do_GET_error_handling.2.1 _ ["", "api", "runs", "default", "ghost", "configs"] none
      "default" "ghost" (by decide) rfl,
   c6_do_GET_error_handling.2.2.2.2.1 _ ["", "api", "runs", "default", "r1", "configs"] none
      "default" "r1" "db locked" (by decide) rfl rfl,
   c6_do_GET_error_handling.2.2.2.2.2.2.2 _ ["", "api", "runs"] none "boom" (by decide) rfl⟩

theorem chars_le_total : ∀ as bs : List Char, chars_le as bs = true ∨ chars_le bs as = true := by
  intro as
  induction as with
  | nil => intro bs; left; rfl
  | cons a as ih =>
    intro bs
    cases bs with
    | nil => right; rfl
    | cons b bs' =>
      rcases Nat.lt_trichotomy a.toNat b.toNat with h | h | h
      · left; simp [chars_le, h]
      · rcases ih bs' with h2 | h2
        · left; simp [chars_le, h, h2, Nat.lt_irrefl]
        · right; simp [chars_le, h.symm, h2, Nat.lt_irrefl]
      · right; simp [chars_le, h]

theorem chars_le_trans : ∀ as bs cs : List Char,
    chars_le as bs = true → chars_le bs cs = true → chars_le as cs = true := by
  intro as
  induction as with
  | nil => intro bs cs h1 h2; rfl
  | cons a as ih =>
    intro bs cs h1 h2
    cases bs with
    | nil => simp [chars_le] at h1
    | cons b bs' =>
      cases cs with
      | nil => simp [chars_le] at h2
      | cons c cs' =>
        by_cases hab : a.toNat < b.toNat <;> by_cases hab2 : a.toNat = b.toNat <;>
          by_cases hbc : b.toNat < c.toNat <;> by_cases hbc2 : b.toNat = c.toNat <;>
          by_cases hac : a.toNat < c.toNat <;> by_cases hac2 : a.toNat = c.toNat <;>
          simp [chars_le, hab, hab2, hbc, hbc2, hac, hac2] at h1 h2 ⊢ <;>
          first
            | omega
            | exact ih bs' cs' h1 h2

theorem str_le_empty_eq (s : String) (h : str_le s "" = true) : s = "" := by
  unfold str_le at h
  have he : ("" : String).data = [] := rfl
  rw [he] at h
  rcases hd : s.data with _ | ⟨c, cs⟩
  · cases s with
    | mk data =>
      simp only at hd
      rw [hd]
  · rw [hd] at h
    simp [chars_le] at h

/-- C8: the catalog scan is total over any directory contents — a run
file whose metadata cannot be read contributes nothing instead of
aborting — and every readable run file of every project directory
contributes its summary; the result is exactly those summaries, ordered
by creation time with the most recent first, where a summary with a
missing creation time carries the minimal sort key `""` and therefore
sorts as the earliest: everything after such a summary also has key
`""`. -/
theorem c8_scan_runs_catalog :
    (∀ projects : List ProjectDir,
      List.Perm (scan_runs projects) ((projects.map project_summaries).flatten))
    ∧ (∀ (projects : List ProjectDir) (pd : ProjectDir) (f : RunFile)
        (m : List (String × String)),
        pd ∈ projects → pd.is_dir = true → pd.has_runs_dir = true →
        f ∈ pd.run_files → f.meta = .ok m →
        summarize pd.name f m ∈ scan_runs projects)
    ∧ (∀ projects : List ProjectDir,
        List.Sorted (fun a b => str_le (scan_sort_key b) (scan_sort_key a) = true)
          (scan_runs projects))
    ∧ (∀ (projects : List ProjectDir) (l1 l2 : List RunSummary) (x y : RunSummary),
        scan_runs projects = l1 ++ x :: l2 → y ∈ l2 → x.created_at = none →
        scan_sort_key y = "") := by
  have hperm : ∀ projects : List ProjectDir,
      List.Perm (scan_runs projects) ((projects.map project_summaries).flatten) := by
    intro projects
    exact List.perm_insertionSort _ _
  have hsorted : ∀ projects : List ProjectDir,
      List.Sorted (fun a b => str_le (scan_sort_key b) (scan_sort_key a) = true)
        (scan_runs projects) := by
    intro projects
    haveI : IsTotal RunSummary (fun a b => str_le (scan_sort_key b) (scan_sort_key a) = true) :=
      ⟨fun a b => chars_le_total (scan_sort_key b).data (scan_sort_key a).data⟩
    haveI : IsTrans RunSummary (fun a b => str_le (scan_sort_key b) (scan_sort_key a) = true) :=
      ⟨fun _ _ _ hab hbc => chars_le_trans _ _ _ hbc hab⟩
    exact List.sorted_insertionSort _ _
  refine ⟨hperm, ?_, hsorted, ?_⟩
  · intro projects pd f m hpd hdir hruns hf hmeta
    have h1 : summarize pd.name f m ∈ project_summaries pd := by
      unfold project_summaries
      rw [hdir, hruns]
      simp only [Bool.and_self, if_true]
      exact List.mem_filterMap.mpr ⟨f, hf, by rw [hmeta]; rfl⟩
    have h2 : summarize pd.name f m ∈ (projects.map project_summaries).flatten :=
      List.mem_flatten.mpr ⟨project_summaries pd, List.mem_map.mpr ⟨pd, hpd, rfl⟩, h1⟩
    exact ((hperm projects).mem_iff).mpr h2
  · intro projects l1 l2 x y heq hy hx
    have hs := hsorted projects
    rw [heq] at hs
    unfold List.Sorted at hs
    have h1 := (List.pairwise_append.mp hs).2.1
    have h2 := (List.pairwise_cons.mp h1).1 y hy
    have hkx : scan_sort_key x = "" := by simp [scan_sort_key, hx]
    rw [hkx] at h2
    exact str_le_empty_eq _ h2

theorem c8_scan_runs_catalog_witness :
    summarize "proj"
        ⟨"r1", .ok [("run_name", "A"), ("created_at", "2024-01-01T00:00:00+00:00"),
          ("status", "finished")]⟩
        [("run_name", "A"), ("created_at", "2024-01-01T00:00:00+00:00"),
          ("status", "finished")]
      ∈ scan_runs [⟨"proj", true, true,
          [⟨"r1", .ok [("run_name", "A"), ("created_at", "2024-01-01T00:00:00+00:00"),
              ("status", "finished")]⟩,
           ⟨"bad", .error "corrupt"⟩, ⟨"r2", .ok []⟩, ⟨"r3", .ok []⟩]⟩]
    ∧ scan_sort_key ⟨"proj", "r3", none, none, none, "unknown"⟩ = "" :=
  ⟨c8_scan_runs_catalog.2.1
      [⟨"proj", true, true,
        [⟨"r1", .ok [("run_name", "A"), ("created_at", "2024-01-01T00:00:00+00:00"),
            ("status", "finished")]⟩,
         ⟨"bad", .error "corrupt"⟩, ⟨"r2", .ok []⟩, ⟨"r3", .ok []⟩]⟩]
      ⟨"proj", true, true,
        [⟨"r1", .ok [("run_name", "A"), ("created_at", "2024-01-01T00:00:00+00:00"),
            ("status", "finished")]⟩,
         ⟨"bad", .error "corrupt"⟩, ⟨"r2", .ok []⟩, ⟨"r3", .ok []⟩]⟩
      ⟨"r1", .ok [("run_name", "A"), ("created_at", "2024-01-01T00:00:00+00:00"),
        ("status", "finished")]⟩
      [("run_name", "A"), ("created_at", "2024-01-01T00:00:00+00:00"),
        ("status", "finished")]
      (by decide) rfl rfl (by decide) rfl,
   c8_scan_runs_catalog.2.2.2
      [⟨"proj", true, true,
        [⟨"r1", .ok [("run_name", "A"), ("created_at", "2024-01-01T00:00:00+00:00"),
            ("status", "finished")]⟩,
         ⟨"bad", .error "corrupt"⟩, ⟨"r2", .ok []⟩, ⟨"r3", .ok []⟩]⟩]
      [⟨"proj", "A", none, some "2024-01-01T00:00:00+00:00", none, "finished"⟩]
      [⟨"proj", "r3", none, none, none, "unknown"⟩]
      ⟨"proj", "r2", none, none, none, "unknown"⟩
      ⟨"proj", "r3", none, none, none, "unknown"⟩
      (by decide) (by decide) rfl⟩

end Goodseed
